import Mathlib

/-!
Verification of the vector-search specification for the superduperdb
example repository.

The repository ships a single walkthrough notebook
(`src/examples/vector_search.ipynb`).  The notebook-level claims (the
environment-variable guard, the client-side re-sort of query results,
and the vector-index identifier strings) are embedded directly from the
notebook cells.  The vector-index design itself (vector store,
similarity index, query engine, serialization, lifecycle) has no code
under `src/`; those components are modelled from the specification text,
as marked in the doc comments below.
-/

namespace VectorSearch

/-- Document identifiers are strings (MongoDB-style ids in the notebook). -/
abbrev DocId := String

/-- Field keys are strings (the notebook listens on the key `value`). -/
abbrev FieldKey := String

/-- Modelled from the spec: an embedding vector is a fixed-length ordered
sequence of floating-point numbers; floats are embedded as rationals. -/
abbrev Vec := List ℚ

/-- Modelled from the spec: an Index Entry is a (vector, document identifier,
field key) triple owned by the Similarity Index. -/
structure Entry where
  id : DocId
  key : FieldKey
  vec : Vec
deriving DecidableEq, Repr

/-- Dot product of two vectors (componentwise product, summed). -/
def dotProd (v w : Vec) : ℚ := (List.zipWith (fun a b => a * b) v w).sum

/-- Squared Euclidean norm of a vector. -/
def normSq (v : Vec) : ℚ := dotProd v v

/-- Modelled from the spec: the total order used to rank entries in a query
result — descending by similarity score; ties broken by ascending document
identifier, and for full determinism by ascending field key after that. -/
def entryLE {S : Type} [LinearOrder S] (f : Entry → S) (a b : Entry) : Prop :=
  f b < f a ∨ (f a = f b ∧ (a.id < b.id ∨ (a.id = b.id ∧ a.key ≤ b.key)))

instance entryLE.decidableRel {S : Type} [LinearOrder S] (f : Entry → S) :
    DecidableRel (entryLE f) := fun a b => by
  unfold entryLE
  infer_instance

instance entryLE.isTotal {S : Type} [LinearOrder S] (f : Entry → S) :
    IsTotal Entry (entryLE f) := by
  refine ⟨fun a b => ?_⟩
  rcases lt_trichotomy (f a) (f b) with hf | hf | hf
  · exact Or.inr (Or.inl hf)
  · rcases lt_trichotomy a.id b.id with hi | hi | hi
    · exact Or.inl (Or.inr ⟨hf, Or.inl hi⟩)
    · rcases le_total a.key b.key with hk | hk
      · exact Or.inl (Or.inr ⟨hf, Or.inr ⟨hi, hk⟩⟩)
      · exact Or.inr (Or.inr ⟨hf.symm, Or.inr ⟨hi.symm, hk⟩⟩)
    · exact Or.inr (Or.inr ⟨hf.symm, Or.inl hi⟩)
  · exact Or.inl (Or.inl hf)

instance entryLE.isTrans {S : Type} [LinearOrder S] (f : Entry → S) :
    IsTrans Entry (entryLE f) := by
  refine ⟨fun a b c hab hbc => ?_⟩
  rcases hab with hab | ⟨habe, hab⟩
  · rcases hbc with hbc | ⟨hbce, _⟩
    · exact Or.inl (hbc.trans hab)
    · exact Or.inl (hbce ▸ hab)
  · rcases hbc with hbc | ⟨hbce, hbc⟩
    · exact Or.inl (habe ▸ hbc)
    · refine Or.inr ⟨habe.trans hbce, ?_⟩
      rcases hab with hab | ⟨habi, hab⟩
      · rcases hbc with hbc | ⟨hbci, _⟩
        · exact Or.inl (hab.trans hbc)
        · exact Or.inl (hbci ▸ hab)
      · rcases hbc with hbc | ⟨hbci, hbc⟩
        · exact Or.inl (habi ▸ hbc)
        · exact Or.inr ⟨habi.trans hbci, hab.trans hbc⟩

/-- Modelled from the spec: the Similarity Index is a searchable structure
built over a snapshot of Index Entries. -/
structure SimIndex where
  entries : List Entry
deriving DecidableEq, Repr

/-- Modelled from the spec: `build(entries)` constructs the index from a
snapshot of entries (full rebuild). -/
def build (entries : List Entry) : SimIndex := ⟨entries⟩

/-- Modelled from the spec: `search(query_vector, k, metric)` returns the
top-k entries ranked descending by similarity score, ties broken by
ascending document identifier (exact brute-force scan). -/
def SimIndex.search {S : Type} [LinearOrder S] (idx : SimIndex)
    (sim : Vec → Vec → S) (q : Vec) (k : ℕ) : List Entry :=
  (List.insertionSort (entryLE (fun e => sim q e.vec)) idx.entries).take k

/-- Modelled from the spec: `upsert(entry)` performs incremental maintenance,
inserting or overwriting the entry for its (id, key) pair in the store. -/
def upsertEntry (st : List Entry) (e : Entry) : List Entry :=
  st.filter (fun x => !(x.id = e.id && x.key = e.key)) ++ [e]

/-- Modelled from the spec: when a source document is deleted, all Index
Entries owned by that document are removed. -/
def deleteDoc (st : List Entry) (d : DocId) : List Entry :=
  st.filter (fun x => !(x.id = d))

/-- Modelled from the spec: the error taxonomy of section 7. -/
inductive VError
  | DimensionMismatch
  | InvalidVector
  | NotFound
  | IndexNotReady
  | EmbeddingVersionMismatch
  | EmbeddingProviderError
  | BuildInProgress
deriving DecidableEq, Repr

/-- A vector is the zero vector when every component is zero. -/
def isZeroVec (v : Vec) : Prop := ∀ x ∈ v, x = 0

instance isZeroVec.decidable (v : Vec) : Decidable (isZeroVec v) := by
  unfold isZeroVec
  infer_instance

/-- Modelled from the spec: validation of the cosine path — cosine requires
vectors be non-zero (zero vectors fail with InvalidVector), and vectors of
differing length fail with DimensionMismatch. -/
def cosineCheck (v w : Vec) : Except VError Unit :=
  if v.length ≠ w.length then .error .DimensionMismatch
  else if normSq v = 0 ∨ normSq w = 0 then .error .InvalidVector
  else .ok ()

/-- Modelled from the spec: cosine similarity of two vectors — their dot
product divided by the product of their Euclidean norms. -/
noncomputable def cosineSim (v w : Vec) : ℝ :=
  ((dotProd v w : ℚ) : ℝ) / (Real.sqrt ((normSq v : ℚ) : ℝ) * Real.sqrt ((normSq w : ℚ) : ℝ))

/-- Modelled from the spec: the cosine path of search — validate the two
vectors, then return the cosine similarity. -/
noncomputable def cosineSimChecked (v w : Vec) : Except VError ℝ :=
  (cosineCheck v w).map fun _ => cosineSim v w

/-- Modelled from the spec: index insertion under the cosine metric rejects
zero vectors with InvalidVector. -/
def upsertCosine (st : List Entry) (e : Entry) : Except VError (List Entry) :=
  if normSq e.vec = 0 then .error .InvalidVector else .ok (upsertEntry st e)

/-- Modelled from the spec: the Vector Index lifecycle states. -/
inductive IndexLifecycle
  | Unbuilt
  | Building
  | Ready
  | Stale
  | Rebuilding
deriving DecidableEq, Repr

/-- Modelled from the spec: the Query Engine rejects queries with
IndexNotReady while the index is Building or Rebuilding, unless a stale-read
policy is explicitly enabled. -/
def queryWithLifecycle (st : IndexLifecycle) (staleReadEnabled : Bool)
    (results : List Entry) : Except VError (List Entry) :=
  match st with
  | .Building => if staleReadEnabled then .ok results else .error .IndexNotReady
  | .Rebuilding => if staleReadEnabled then .ok results else .error .IndexNotReady
  | .Unbuilt => .error .IndexNotReady
  | .Ready => .ok results
  | .Stale => .ok results

/-- Steps of the notebook that follow the setup cell. -/
inductive NbStep
  | connectDatastore
  | insertDocuments
  | registerIndex
  | executeQuery
deriving DecidableEq, Repr

/-- Notebook cell a1c8e68c: if OPENAI_API_KEY is absent from the environment
an Exception is raised before any later step runs; otherwise execution
proceeds to the datastore connection, document insertion, index registration
and query cells. -/
def runNotebook (env : List (String × String)) : Except String (List NbStep) :=
  match env.lookup "OPENAI_API_KEY" with
  | none => .error "You need to set an OpenAI key as environment variable: \"export OPEN_API_KEY=sk-...\""
  | some _ => .ok [NbStep.connectDatastore, NbStep.insertDocuments,
      NbStep.registerIndex, NbStep.executeQuery]

/-- Record displayed by the notebook's query cell: the query results carry a
`score`, a `parent` reference, a symbol name `res` and the text `value`. -/
structure QueryRow where
  res : String
  parent : String
  value : String
  score : ℚ
deriving DecidableEq, Repr

/-- The sort key relation used by the notebook's client-side sort
`sorted(result, key=lambda r: -r['score'])`: ascending order of the
negated score. -/
def negScoreLE (a b : QueryRow) : Prop := -a.score ≤ -b.score

instance negScoreLE.decidableRel : DecidableRel negScoreLE := fun a b => by
  unfold negScoreLE
  infer_instance

instance negScoreLE.isTotal : IsTotal QueryRow negScoreLE :=
  ⟨fun _ _ => le_total _ _⟩

instance negScoreLE.isTrans : IsTrans QueryRow negScoreLE :=
  ⟨fun _ _ _ hab hbc => le_trans hab hbc⟩

/-- The notebook's query cell iterates `sorted(result, key=lambda r:
-r['score'])`: a stable sort of the result sequence ascending in the negated
score. -/
def displayOrder (result : List QueryRow) : List QueryRow :=
  List.insertionSort negScoreLE result

/-- Notebook cell 46ce7a59: the VectorIndex is registered under the
identifier built by the f-string `pymongo-docs-` followed by
`model.identifier`. -/
def vectorIndexIdentifier (modelIdentifier : String) : String :=
  "pymongo-docs-" ++ modelIdentifier

/-- Notebook cell f0184fb1: the `like(...)` query passes as `vector_index`
the name built by the f-string `pymongo-docs-` followed by
`model.identifier`. -/
def likeQueryVectorIndex (modelIdentifier : String) : String :=
  "pymongo-docs-" ++ modelIdentifier

/-- Modelled from the spec: the distance metric recorded in a snapshot
header. -/
inductive Metric
  | cosineMetric
  | dotProductMetric
  | euclideanMetric
deriving DecidableEq, Repr

/-- Modelled from the spec: a Vector Index snapshot — header data (dimension,
metric, embedding-function identifier) plus the ordered entries. -/
structure VectorIndexSnap where
  dim : ℕ
  metric : Metric
  embedId : String
  entries : List Entry
deriving DecidableEq, Repr

/-- Atoms of the stable byte format a snapshot serializes to. -/
inductive Token
  | tnat (n : ℕ)
  | trat (x : ℚ)
  | tstr (s : String)
  | tmetric (m : Metric)
deriving DecidableEq, Repr

/-- Serialization of a vector: its length followed by its components. -/
def serializeVec (v : Vec) : List Token :=
  Token.tnat v.length :: v.map Token.trat

/-- Serialization of an entry: identifier, field key, then the vector. -/
def serializeEntry (e : Entry) : List Token :=
  Token.tstr e.id :: Token.tstr e.key :: serializeVec e.vec

/-- Modelled from the spec: a snapshot serializes to a header (dimension,
metric, embedding-function identifier, entry count) followed by the ordered
entries. -/
def serializeSnap (s : VectorIndexSnap) : List Token :=
  Token.tnat s.dim :: Token.tmetric s.metric :: Token.tstr s.embedId ::
    Token.tnat s.entries.length :: (s.entries.map serializeEntry).flatten

/-- Parse a run of `n` rational components. -/
def parseRats : ℕ → List Token → Option (List ℚ × List Token)
  | 0, ts => some ([], ts)
  | n + 1, Token.trat x :: ts =>
      match parseRats n ts with
      | some (xs, rest) => some (x :: xs, rest)
      | none => none
  | _ + 1, _ => none

/-- Parse a length-prefixed vector. -/
def parseVec : List Token → Option (Vec × List Token)
  | Token.tnat n :: ts => parseRats n ts
  | _ => none

/-- Parse one serialized entry. -/
def parseEntry : List Token → Option (Entry × List Token)
  | Token.tstr i :: Token.tstr k :: ts =>
      match parseVec ts with
      | some (v, rest) => some (⟨i, k, v⟩, rest)
      | none => none
  | _ => none

/-- Parse a run of `n` serialized entries. -/
def parseEntries : ℕ → List Token → Option (List Entry × List Token)
  | 0, ts => some ([], ts)
  | n + 1, ts =>
      match parseEntry ts with
      | some (e, rest) =>
          match parseEntries n rest with
          | some (es, rest2) => some (e :: es, rest2)
          | none => none
      | none => none

/-- Modelled from the spec: deserialization of a snapshot from the byte
format — header first, then exactly the announced number of entries, with no
trailing data. -/
def deserializeSnap (ts : List Token) : Option VectorIndexSnap :=
  match ts with
  | Token.tnat d :: Token.tmetric m :: Token.tstr eid :: Token.tnat n :: rest =>
      match parseEntries n rest with
      | some (es, []) => some ⟨d, m, eid, es⟩
      | _ => none
  | _ => none

/-- Entry a of the spec's worked example, with vector [1, 0]. -/
def entryA : Entry := ⟨"a", "value", [1, 0]⟩

/-- Entry b of the spec's worked example, with vector [0, 1]. -/
def entryB : Entry := ⟨"b", "value", [0, 1]⟩

/-- Entry c of the spec's worked example, with vector [0.9, 0.1]. -/
def entryC : Entry := ⟨"c", "value", [9/10, 1/10]⟩

/-- The spec's worked-example store holding entries a, b and c. -/
def exampleStore : List Entry := [entryA, entryB, entryC]

/-! Theorems: helper lemmas first, then one theorem per claim with its
witness where the statement carries hypotheses. -/

/-- Every result returned by a search is one of the index's entries. -/
theorem SimIndex.search_mem {S : Type} [LinearOrder S] (idx : SimIndex)
    (sim : Vec → Vec → S) (q : Vec) (k : ℕ)
    (r : Entry) (hr : r ∈ idx.search sim q k) : r ∈ idx.entries := by
  have hsub : r ∈ List.insertionSort (entryLE (fun e => sim q e.vec)) idx.entries :=
    List.take_subset k _ hr
  exact (List.perm_insertionSort _ idx.entries).mem_iff.mp hsub

/-- The search result list is pairwise ordered by the ranking order. -/
theorem SimIndex.search_pairwise {S : Type} [LinearOrder S] (idx : SimIndex)
    (sim : Vec → Vec → S) (q : Vec) (k : ℕ) :
    (idx.search sim q k).Pairwise (entryLE (fun e => sim q e.vec)) := by
  have hs := List.sorted_insertionSort (entryLE (fun e => sim q e.vec)) idx.entries
  exact List.Pairwise.sublist (List.take_sublist k _) hs

theorem normSq_cons (x : ℚ) (v : Vec) : normSq (x :: v) = x * x + normSq v := by
  simp [normSq, dotProd]

theorem normSq_nonneg (v : Vec) : 0 ≤ normSq v := by
  induction v with
  | nil => simp [normSq, dotProd]
  | cons x v ih =>
    rw [normSq_cons]
    exact add_nonneg (mul_self_nonneg x) ih

theorem normSq_eq_zero_iff (v : Vec) : normSq v = 0 ↔ isZeroVec v := by
  induction v with
  | nil => simp [normSq, dotProd, isZeroVec]
  | cons x v ih =>
    rw [normSq_cons]
    constructor
    · intro h
      have hx : x * x = 0 ∧ normSq v = 0 :=
        (add_eq_zero_iff_of_nonneg (mul_self_nonneg x) (normSq_nonneg v)).mp h
      intro y hy
      rcases List.mem_cons.mp hy with hy | hy
      · exact hy ▸ mul_self_eq_zero.mp hx.1
      · exact (ih.mp hx.2) y hy
    · intro h
      have hx : x = 0 := h x (List.mem_cons_self x v)
      have hv : normSq v = 0 := ih.mpr (fun y hy => h y (List.mem_cons_of_mem x hy))
      rw [hx, hv]
      ring

/-- C1: In the notebook's query cell, the results displayed to the user are
iterated in descending order of their score field: for every result sequence,
the client-side sort with key minus score yields a sequence in which each
element's score is greater than or equal to the next element's score. -/
theorem display_order_descending (result : List QueryRow) :
    (displayOrder result).Chain' (fun a b => b.score ≤ a.score) := by
  have hs : (displayOrder result).Pairwise negScoreLE :=
    List.sorted_insertionSort negScoreLE result
  have hp : (displayOrder result).Pairwise (fun a b => b.score ≤ a.score) :=
    hs.imp (fun h => neg_le_neg_iff.mp h)
  exact hp.chain'

/-- C10: the identifier used when registering the VectorIndex and the
vector_index name used in the later like query are the same string for every
model identifier, so the query always targets the index that was
registered. -/
theorem vector_index_names_agree (modelIdentifier : String) :
    vectorIndexIdentifier modelIdentifier = likeQueryVectorIndex modelIdentifier := rfl

/-- C3: for every index snapshot, similarity function, query vector and k,
search is a deterministic function of the snapshot, its results are ordered
descending by similarity score, and whenever two entries have equal scores
the one with the smaller document identifier precedes the other. -/
theorem search_deterministic_ordered {S : Type} [LinearOrder S]
    (sim : Vec → Vec → S) (idx idx' : SimIndex) (q : Vec) (k : ℕ)
    (h : idx.entries = idx'.entries) :
    idx.search sim q k = idx'.search sim q k ∧
    (idx.search sim q k).Pairwise
      (fun a b => sim q b.vec ≤ sim q a.vec ∧ (sim q a.vec = sim q b.vec → a.id ≤ b.id)) := by
  constructor
  · have hi : idx = idx' := by
      cases idx
      cases idx'
      simpa using h
    rw [hi]
  · have hp := idx.search_pairwise sim q k
    refine hp.imp ?_
    intro a b hab
    rcases hab with hlt | ⟨heq, hid⟩
    · replace hlt : sim q b.vec < sim q a.vec := hlt
      refine ⟨le_of_lt hlt, fun he => absurd hlt ?_⟩
      rw [he]
      exact lt_irrefl _
    · refine ⟨le_of_eq heq.symm, fun _ => ?_⟩
      rcases hid with hid | ⟨hid, _⟩
      · exact le_of_lt hid
      · exact le_of_eq hid

/-- Witness for C3 at a concrete snapshot with the dot-product metric. -/
theorem search_deterministic_ordered_witness :
    (build [⟨"a", "value", [1]⟩] : SimIndex).entries =
      (build [⟨"a", "value", [1]⟩] : SimIndex).entries ∧
    ((build [⟨"a", "value", [1]⟩]).search (fun q v => dotProd q v) [1] 1 =
        (build [⟨"a", "value", [1]⟩]).search (fun q v => dotProd q v) [1] 1 ∧
      ((build [⟨"a", "value", [1]⟩]).search (fun q v => dotProd q v) [1] 1).Pairwise
        (fun a b => dotProd [1] b.vec ≤ dotProd [1] a.vec ∧
          (dotProd [1] a.vec = dotProd [1] b.vec → a.id ≤ b.id))) :=
  ⟨rfl, search_deterministic_ordered (fun q v => dotProd q v)
    (build [⟨"a", "value", [1]⟩]) (build [⟨"a", "value", [1]⟩]) [1] 1 rfl⟩

/-- C5: if a document is inserted and then deleted, no later search over the
index built from the resulting store returns that document, for any query
vector and any k. -/
theorem deleted_document_never_returned {S : Type} [LinearOrder S]
    (sim : Vec → Vec → S) (st : List Entry) (e : Entry) (q : Vec) (k : ℕ)
    (r : Entry) (hr : r ∈ (build (deleteDoc (upsertEntry st e) e.id)).search sim q k) :
    r.id ≠ e.id := by
  have hmem := SimIndex.search_mem _ sim q k r hr
  have hfil := List.of_mem_filter hmem
  simpa using hfil

/-- Witness for C5: insert document a, delete it, search the remaining store
with the dot-product metric; the result b is not a. -/
theorem deleted_document_never_returned_witness :
    (⟨"b", "value", [1]⟩ : Entry) ∈
      (build (deleteDoc (upsertEntry [⟨"b", "value", [1]⟩] ⟨"a", "value", [2]⟩) "a")).search
        (fun q v => dotProd q v) [1] 2 ∧
    Entry.id ⟨"b", "value", [1]⟩ ≠ Entry.id ⟨"a", "value", [2]⟩ :=
  ⟨by decide, deleted_document_never_returned (fun q v => dotProd q v)
    [⟨"b", "value", [1]⟩] ⟨"a", "value", [2]⟩ [1] 2 ⟨"b", "value", [1]⟩ (by decide)⟩

/-- C6: building the Similarity Index twice from the same entry set yields
two indexes whose search results agree for every query and k, in membership
and in order. -/
theorem rebuild_deterministic {S : Type} [LinearOrder S]
    (sim : Vec → Vec → S) (E : List Entry) (q : Vec) (k : ℕ)
    (i1 i2 : SimIndex) (h1 : i1 = build E) (h2 : i2 = build E) :
    i1.search sim q k = i2.search sim q k := by
  rw [h1, h2]

/-- Witness for C6 at a concrete entry set with the dot-product metric. -/
theorem rebuild_deterministic_witness :
    build [⟨"a", "value", [1]⟩] = build [⟨"a", "value", [1]⟩] ∧
    (build [⟨"a", "value", [1]⟩]).search (fun q v => dotProd q v) [1] 1 =
      (build [⟨"a", "value", [1]⟩]).search (fun q v => dotProd q v) [1] 1 :=
  ⟨rfl, rebuild_deterministic (fun q v => dotProd q v) [⟨"a", "value", [1]⟩] [1] 1
    (build [⟨"a", "value", [1]⟩]) (build [⟨"a", "value", [1]⟩]) rfl rfl⟩

/-- C7: under the cosine metric, for vectors of equal dimension the
similarity path fails with InvalidVector exactly when an involved vector is
the zero vector; every non-zero pair succeeds without that error; and index
insertion fails with InvalidVector exactly when the inserted vector is
zero. -/
theorem cosine_invalid_vector_iff (v w : Vec) (h : v.length = w.length) :
    (cosineSimChecked v w = .error VError.InvalidVector ↔ isZeroVec v ∨ isZeroVec w) ∧
    (¬ isZeroVec v → ¬ isZeroVec w → cosineSimChecked v w = .ok (cosineSim v w)) ∧
    (∀ (st : List Entry) (e : Entry),
      upsertCosine st e = .error VError.InvalidVector ↔ isZeroVec e.vec) := by
  refine ⟨?_, ?_, ?_⟩
  · unfold cosineSimChecked cosineCheck
    rw [if_neg (by simpa using h)]
    by_cases hz : normSq v = 0 ∨ normSq w = 0
    · rw [if_pos hz]
      simp only [Except.map]
      constructor
      · intro _
        rcases hz with hz | hz
        · exact Or.inl ((normSq_eq_zero_iff v).mp hz)
        · exact Or.inr ((normSq_eq_zero_iff w).mp hz)
      · intro _
        trivial
    · rw [if_neg hz]
      simp only [Except.map]
      constructor
      · intro hcontra
        exact absurd hcontra (by simp)
      · intro hzero
        exfalso
        rcases hzero with hzero | hzero
        · exact hz (Or.inl ((normSq_eq_zero_iff v).mpr hzero))
        · exact hz (Or.inr ((normSq_eq_zero_iff w).mpr hzero))
  · intro hv hw
    unfold cosineSimChecked cosineCheck
    rw [if_neg (by simpa using h), if_neg]
    · rfl
    · rintro (hz | hz)
      · exact hv ((normSq_eq_zero_iff v).mp hz)
      · exact hw ((normSq_eq_zero_iff w).mp hz)
  · intro st e
    unfold upsertCosine
    by_cases hz : normSq e.vec = 0
    · rw [if_pos hz]
      simpa using (normSq_eq_zero_iff e.vec).mp hz
    · rw [if_neg hz]
      constructor
      · intro hcontra
        exact absurd hcontra (by simp)
      · intro hzero
        exact absurd ((normSq_eq_zero_iff e.vec).mpr hzero) hz

/-- Witness for C7: the zero vector of dimension two fails with
InvalidVector against a non-zero vector of the same dimension. -/
theorem cosine_invalid_vector_iff_witness :
    (([0, 0] : Vec)).length = (([1, 2] : Vec)).length ∧
    cosineSimChecked [0, 0] [1, 2] = .error VError.InvalidVector :=
  ⟨rfl, (cosine_invalid_vector_iff [0, 0] [1, 2] rfl).1.mpr (Or.inl (by decide))⟩

/-- C8: a query against an index whose lifecycle state is Building or
Rebuilding, with the stale-read policy disabled, fails with IndexNotReady
and never produces an ok result sequence, empty or otherwise. -/
theorem building_query_not_ready (st : IndexLifecycle) (staleReadEnabled : Bool)
    (results : List Entry)
    (h : st = IndexLifecycle.Building ∨ st = IndexLifecycle.Rebuilding)
    (hs : staleReadEnabled = false) :
    queryWithLifecycle st staleReadEnabled results = .error VError.IndexNotReady ∧
    ∀ rs : List Entry, queryWithLifecycle st staleReadEnabled results ≠ .ok rs := by
  have hq : queryWithLifecycle st staleReadEnabled results = .error VError.IndexNotReady := by
    rcases h with h | h
    · rw [h, hs]
      rfl
    · rw [h, hs]
      rfl
  refine ⟨hq, fun rs hcontra => ?_⟩
  rw [hq] at hcontra
  exact absurd hcontra (by simp)

/-- Witness for C8 at the Building state with stale reads disabled. -/
theorem building_query_not_ready_witness :
    (IndexLifecycle.Building = IndexLifecycle.Building ∨
      IndexLifecycle.Building = IndexLifecycle.Rebuilding) ∧
    queryWithLifecycle IndexLifecycle.Building false [] = .error VError.IndexNotReady ∧
    ∀ rs : List Entry, queryWithLifecycle IndexLifecycle.Building false [] ≠ .ok rs :=
  ⟨Or.inl rfl, building_query_not_ready IndexLifecycle.Building false [] (Or.inl rfl) rfl⟩

/-- C9: if OPENAI_API_KEY is not set the notebook's setup cell raises an
Exception before any later step (datastore connection, document insertion,
index registration, query) runs; if it is set, the cell raises nothing and
execution proceeds through all later steps. -/
theorem openai_key_guard (env : List (String × String)) :
    (env.lookup "OPENAI_API_KEY" = none →
      runNotebook env = .error
        "You need to set an OpenAI key as environment variable: \"export OPEN_API_KEY=sk-...\"") ∧
    (∀ v : String, env.lookup "OPENAI_API_KEY" = some v →
      runNotebook env = .ok [NbStep.connectDatastore, NbStep.insertDocuments,
        NbStep.registerIndex, NbStep.executeQuery]) := by
  constructor
  · intro h
    unfold runNotebook
    rw [h]
  · intro v h
    unfold runNotebook
    rw [h]

/-- Witness for C9: the empty environment fails the guard; an environment
holding the key proceeds to all later steps. -/
theorem openai_key_guard_witness :
    runNotebook [] = .error
      "You need to set an OpenAI key as environment variable: \"export OPEN_API_KEY=sk-...\"" ∧
    runNotebook [("OPENAI_API_KEY", "sk-test")] =
      .ok [NbStep.connectDatastore, NbStep.insertDocuments,
        NbStep.registerIndex, NbStep.executeQuery] :=
  ⟨(openai_key_guard []).1 rfl,
    (openai_key_guard [("OPENAI_API_KEY", "sk-test")]).2 "sk-test" rfl⟩

theorem parseRats_append (v : List ℚ) (rest : List Token) :
    parseRats v.length (v.map Token.trat ++ rest) = some (v, rest) := by
  induction v with
  | nil => rfl
  | cons x v ih => simp [parseRats, ih]

theorem parseVec_append (v : Vec) (rest : List Token) :
    parseVec (serializeVec v ++ rest) = some (v, rest) := by
  simp [serializeVec, parseVec, parseRats_append]

theorem parseEntry_append (e : Entry) (rest : List Token) :
    parseEntry (serializeEntry e ++ rest) = some (e, rest) := by
  simp [serializeEntry, parseEntry, parseVec_append]

theorem parseEntries_append (es : List Entry) (rest : List Token) :
    parseEntries es.length ((es.map serializeEntry).flatten ++ rest) = some (es, rest) := by
  induction es with
  | nil => rfl
  | cons e es ih =>
    simp [parseEntries, List.append_assoc, parseEntry_append, ih]

theorem deserialize_serialize (s : VectorIndexSnap) :
    deserializeSnap (serializeSnap s) = some s := by
  have h := parseEntries_append s.entries []
  rw [List.append_nil] at h
  simp [deserializeSnap, serializeSnap, h]

/-- C4: serializing a Vector Index snapshot to the byte format and
deserializing it back yields an index containing exactly the same entries
and producing identical top-k search results for every query as the
original. -/
theorem serialize_roundtrip_preserves_search {S : Type} [LinearOrder S]
    (sim : Vec → Vec → S) (snap : VectorIndexSnap) (q : Vec) (k : ℕ) :
    ∃ snap' : VectorIndexSnap,
      deserializeSnap (serializeSnap snap) = some snap' ∧
      snap'.entries = snap.entries ∧
      (build snap'.entries).search sim q k = (build snap.entries).search sim q k :=
  ⟨snap, deserialize_serialize snap, rfl, rfl⟩

theorem dotProd_query_a : dotProd [1, 0] [1, 0] = 1 := by
  norm_num [dotProd]

theorem dotProd_query_b : dotProd [1, 0] [0, 1] = 0 := by
  norm_num [dotProd]

theorem dotProd_query_c : dotProd [1, 0] [9/10, 1/10] = 9/10 := by
  norm_num [dotProd]

theorem normSq_query : normSq [1, 0] = 1 := by
  norm_num [normSq, dotProd]

theorem normSq_c : normSq [9/10, 1/10] = 41/50 := by
  norm_num [normSq, dotProd]

theorem cosineSim_query_a : cosineSim [1, 0] [1, 0] = 1 := by
  unfold cosineSim
  rw [dotProd_query_a, normSq_query]
  push_cast
  rw [Real.sqrt_one]
  norm_num

theorem cosineSim_query_b : cosineSim [1, 0] [0, 1] = 0 := by
  unfold cosineSim
  rw [dotProd_query_b]
  push_cast
  exact zero_div _

theorem cosineSim_query_c_eq :
    cosineSim [1, 0] [9/10, 1/10] = (9/10 : ℝ) / Real.sqrt ((41 : ℝ)/50) := by
  unfold cosineSim
  rw [dotProd_query_c, normSq_query, normSq_c]
  push_cast
  rw [Real.sqrt_one, one_mul]

theorem sqrt_c_pos : (0 : ℝ) < Real.sqrt ((41 : ℝ)/50) :=
  Real.sqrt_pos.mpr (by norm_num)

theorem sqrt_c_bounds :
    (905/1000 : ℝ) < Real.sqrt ((41 : ℝ)/50) ∧ Real.sqrt ((41 : ℝ)/50) < 906/1000 :=
  ⟨(Real.lt_sqrt (by norm_num)).mpr (by norm_num),
   (Real.sqrt_lt' (by norm_num)).mpr (by norm_num)⟩

theorem cosineSim_query_c_pos : 0 < cosineSim [1, 0] [9/10, 1/10] := by
  rw [cosineSim_query_c_eq]
  exact div_pos (by norm_num) sqrt_c_pos

theorem cosineSim_query_c_lt_one : cosineSim [1, 0] [9/10, 1/10] < 1 := by
  rw [cosineSim_query_c_eq, div_lt_one sqrt_c_pos]
  exact (Real.lt_sqrt (by norm_num)).mpr (by norm_num)

theorem cosineSim_query_c_approx :
    |cosineSim [1, 0] [9/10, 1/10] - 994/1000| < 1/1000 := by
  rw [cosineSim_query_c_eq]
  have h1 := sqrt_c_bounds.1
  have h2 := sqrt_c_bounds.2
  have hpos := sqrt_c_pos
  have hup : (9/10 : ℝ) / Real.sqrt ((41 : ℝ)/50) < 995/1000 := by
    rw [div_lt_iff₀ hpos]
    linarith
  have hlo : (993/1000 : ℝ) < (9/10 : ℝ) / Real.sqrt ((41 : ℝ)/50) := by
    rw [lt_div_iff₀ hpos]
    linarith
  rw [abs_sub_lt_iff]
  constructor <;> linarith

theorem cosine_example_sorted :
    (build exampleStore).search cosineSim [1, 0] 2 = [entryA, entryC] := by
  have hbc : ¬ entryLE (fun e => cosineSim [1, 0] e.vec) entryB entryC := by
    intro hcon
    rcases hcon with hlt | ⟨heq, _⟩
    · replace hlt : cosineSim [1, 0] [9/10, 1/10] < cosineSim [1, 0] [0, 1] := hlt
      rw [cosineSim_query_b] at hlt
      exact absurd hlt (not_lt.mpr (le_of_lt cosineSim_query_c_pos))
    · replace heq : cosineSim [1, 0] [0, 1] = cosineSim [1, 0] [9/10, 1/10] := heq
      rw [cosineSim_query_b] at heq
      exact absurd heq.symm (ne_of_gt cosineSim_query_c_pos)
  have hac : entryLE (fun e => cosineSim [1, 0] e.vec) entryA entryC := by
    refine Or.inl ?_
    show cosineSim [1, 0] [9/10, 1/10] < cosineSim [1, 0] [1, 0]
    rw [cosineSim_query_a]
    exact cosineSim_query_c_lt_one
  show (List.insertionSort (entryLE (fun e => cosineSim [1, 0] e.vec))
    [entryA, entryB, entryC]).take 2 = [entryA, entryC]
  simp only [List.insertionSort, List.orderedInsert]
  rw [if_neg hbc]
  simp only [List.orderedInsert]
  rw [if_pos hac]
  rfl

/-- C2: for the Similarity Index over the store a maps-to [1, 0], b maps-to
[0, 1], c maps-to [0.9, 0.1] with the cosine metric, searching with query
vector [1, 0] and k equal to 2 returns exactly the identifiers a then c, with
a's similarity equal to 1, c's within 0.001 of 0.994, and b's equal to 0. -/
theorem cosine_worked_example :
    (build exampleStore).search cosineSim [1, 0] 2 = [entryA, entryC] ∧
    cosineSim [1, 0] [1, 0] = 1 ∧
    |cosineSim [1, 0] [9/10, 1/10] - 994/1000| < 1/1000 ∧
    cosineSim [1, 0] [0, 1] = 0 :=
  ⟨cosine_example_sorted, cosineSim_query_a, cosineSim_query_c_approx, cosineSim_query_b⟩

end VectorSearch
